import Mathlib

/-!
Verification development for the join-guard moderation bot (`src/main.py`).

The Python source is shallowly embedded: pure helpers become Lean
functions, database rows become structures, the stateful handlers become
explicit state-passing functions, and the awaited external calls
(Telegram admit/reject, profile-signal lookups) become explicit
parameters recording the call outcome.  Machine floats used for the
timestamp interpolation are modelled exactly over `ℚ`.
-/

namespace JoinGuard

/-- The anchor table `ID_DATE_ANCHORS` from `src/main.py`, with each
`datetime(..., tzinfo=timezone.utc)` replaced by its UTC Unix timestamp
in seconds (e.g. `datetime(2013, 8, 14)` is `1376438400`). -/
def ID_DATE_ANCHORS : List (Int × ℚ) :=
  [ (1, 1376438400)
  , (1000000000, 1483228800)
  , (2000000000, 1546300800)
  , (3000000000, 1609459200)
  , (4000000000, 1656633600)
  , (5000000000, 1688169600)
  , (6000000000, 1719792000)
  , (7000000000, 1751328000) ]

/-- The `for index in range(len(ID_DATE_ANCHORS) - 1)` loop of
`estimate_created_at_from_user_id`: scan consecutive anchor pairs and
return the linear interpolation for the first bracketing pair, `none`
when no pair brackets the identifier. -/
def interpolateAnchors : List (Int × ℚ) → Int → Option ℚ
  | (leftId, leftTs) :: (rightId, rightTs) :: rest, userId =>
      if leftId ≤ userId ∧ userId ≤ rightId then
        some (leftTs +
          (((userId - leftId : Int) : ℚ) / ((rightId - leftId : Int) : ℚ)) *
            (rightTs - leftTs))
      else interpolateAnchors ((rightId, rightTs) :: rest) userId
  | _, _ => none

/-- `estimate_created_at_from_user_id` from `src/main.py`: clamp below
the first anchor, interpolate between bracketing anchors, clamp to the
last anchor's timestamp otherwise. -/
def estimate_created_at_from_user_id (userId : Int) : ℚ :=
  if userId ≤ (ID_DATE_ANCHORS.headD (0, 0)).1 then
    (ID_DATE_ANCHORS.headD (0, 0)).2
  else
    (interpolateAnchors ID_DATE_ANCHORS userId).getD
      (ID_DATE_ANCHORS.getLastD (0, 0)).2

/-- `estimate_account_age_days` from `src/main.py`; `now` is the current
UTC timestamp in seconds, and `(now - created_at).days` is the floor of
the elapsed seconds divided by 86400. -/
def estimate_account_age_days (userId : Int) (now : ℚ) : Int :=
  max 0 ⌊(now - estimate_created_at_from_user_id userId) / 86400⌋

/-- Lifecycle status values stored in the `status` column of
`join_requests`. -/
inductive Status
  | new
  | pending_admin
  | pending_captcha
  | approved
  | declined
deriving DecidableEq

/-- One row of the `join_requests` table (see `Storage._init_schema`).
`NULL`-able columns are `Option`s; `risk_reasons` holds the list that the
source stores JSON-serialised. -/
structure JoinRecord where
  id : Nat
  channel_id : Int
  user_id : Int
  user_chat_id : Int
  username : Option String
  first_name : String
  last_name : Option String
  submitted_at : Int
  status : Status
  is_suspicious : Bool
  estimated_age_days : Option Int
  risk_score : Int
  risk_reasons : Option (List String)
  captcha_question : Option String
  captcha_answer : Option Int
  captcha_attempts : Int
  captcha_max_attempts : Int
  captcha_difficulty : String
  decision_by : Option Int
  decision_at : Option Int
  reason : Option String
deriving DecidableEq

/-- The validated runtime configuration (`Settings.from_env`), restricted
to the fields the moderation engine reads. -/
structure Settings where
  channel_id : Int
  min_account_age_days : Int
  max_captcha_attempts : Int
  risk_score_to_admin : Int
  risk_score_to_hard_captcha : Int
  hard_captcha_attempts : Int
deriving DecidableEq

/-- The fields of an inbound `ChatJoinRequest` that
`Storage.create_or_refresh_request` reads. -/
structure JoinRequestEvent where
  channel_id : Int
  user_id : Int
  user_chat_id : Int
  username : Option String
  first_name : String
  last_name : Option String
deriving DecidableEq

/-- The persisted `join_requests` table plus the `AUTOINCREMENT` cursor. -/
structure Storage where
  rows : List JoinRecord
  next_id : Nat
deriving DecidableEq

/-- `SELECT * FROM join_requests WHERE channel_id = ? AND user_id = ?`. -/
def Storage.findByKey (st : Storage) (channelId userId : Int) : Option JoinRecord :=
  st.rows.find? (fun r => r.channel_id == channelId && r.user_id == userId)

/-- `SELECT * FROM join_requests WHERE id = ?` (`Storage.get`). -/
def Storage.getById (st : Storage) (requestId : Nat) : Option JoinRecord :=
  st.rows.find? (fun r => r.id == requestId)

/-- `UPDATE join_requests SET ... WHERE id = ?`: apply `f` to every row
whose `id` matches. -/
def Storage.updateById (st : Storage) (requestId : Nat) (f : JoinRecord → JoinRecord) :
    Storage :=
  { st with rows := st.rows.map (fun r => if r.id == requestId then f r else r) }

/-- `Storage.create_or_refresh_request`: `INSERT ... ON CONFLICT(channel_id,
user_id) DO UPDATE` resetting status to `'new'` and all risk, challenge and
decision columns to their initial values, then `SELECT id` for the row.
The insert branch returns the id the fresh row was assigned. -/
def Storage.create_or_refresh_request (st : Storage) (jr : JoinRequestEvent)
    (now : Int) : Storage × Nat :=
  match st.findByKey jr.channel_id jr.user_id with
  | none =>
      let fresh : JoinRecord :=
        { id := st.next_id
          channel_id := jr.channel_id
          user_id := jr.user_id
          user_chat_id := jr.user_chat_id
          username := jr.username
          first_name := jr.first_name
          last_name := jr.last_name
          submitted_at := now
          status := .new
          is_suspicious := false
          estimated_age_days := none
          risk_score := 0
          risk_reasons := none
          captcha_question := none
          captcha_answer := none
          captcha_attempts := 0
          captcha_max_attempts := 3
          captcha_difficulty := "normal"
          decision_by := none
          decision_at := none
          reason := none }
      ({ rows := st.rows ++ [fresh], next_id := st.next_id + 1 }, st.next_id)
  | some r =>
      let refreshed : JoinRecord :=
        { r with
          user_chat_id := jr.user_chat_id
          username := jr.username
          first_name := jr.first_name
          last_name := jr.last_name
          submitted_at := now
          status := .new
          is_suspicious := false
          estimated_age_days := none
          risk_score := 0
          risk_reasons := none
          captcha_question := none
          captcha_answer := none
          captcha_attempts := 0
          captcha_max_attempts := 3
          captcha_difficulty := "normal"
          decision_by := none
          decision_at := none
          reason := none }
      let newRows := st.rows.map
        (fun x => if x.channel_id == jr.channel_id && x.user_id == jr.user_id
          then refreshed else x)
      ({ rows := newRows, next_id := st.next_id }, r.id)

/-- `Storage.set_risk_profile`, restricted to the targeted row. -/
def Storage.set_risk_profile (r : JoinRecord) (estimatedAgeDays riskScore : Int)
    (reasons : List String) : JoinRecord :=
  { r with
    estimated_age_days := some estimatedAgeDays
    risk_score := riskScore
    risk_reasons := some reasons }

/-- `Storage.mark_pending_admin`, restricted to the targeted row. -/
def Storage.mark_pending_admin (r : JoinRecord) (reason2 : String) : JoinRecord :=
  { r with status := .pending_admin, is_suspicious := true, reason := some reason2 }

/-- `Storage.mark_pending_captcha`, restricted to the targeted row. -/
def Storage.mark_pending_captcha (r : JoinRecord) (question : String) (answer : Int)
    (maxAttempts : Int) (difficulty : String) : JoinRecord :=
  { r with
    status := .pending_captcha
    is_suspicious := difficulty == "hard"
    captcha_question := some question
    captcha_answer := some answer
    captcha_attempts := 0
    captcha_max_attempts := maxAttempts
    captcha_difficulty := difficulty
    reason := none }

/-- `Storage.refresh_captcha`, restricted to the targeted row. -/
def Storage.refresh_captcha (r : JoinRecord) (question : String) (answer : Int) :
    JoinRecord :=
  { r with captcha_question := some question, captcha_answer := some answer }

/-- `Storage.increment_captcha_attempts`, restricted to the targeted row; the
source returns the incremented counter, here read off the updated record. -/
def Storage.increment_captcha_attempts (r : JoinRecord) : JoinRecord :=
  { r with captcha_attempts := r.captcha_attempts + 1 }

/-- `Storage.complete`: writes the terminal status, decision author,
decision time and reason.  Note the `UPDATE` is keyed on `id` only — it
does not re-check the current `status` before writing. -/
def Storage.complete (r : JoinRecord) (status : Status) (decisionBy : Option Int)
    (now : Int) (reason2 : String) : JoinRecord :=
  { r with
    status := status
    decision_by := decisionBy
    decision_at := some now
    reason := some reason2 }

/-- The fields of an aiogram `User` that the risk scorer reads. -/
structure User where
  id : Int
  is_bot : Bool
  username : Option String
  first_name : String
  last_name : Option String
deriving DecidableEq

/-- Result type of `assess_risk`. -/
structure RiskAssessment where
  estimated_age_days : Int
  score : Int
  reasons : List String
deriving DecidableEq

/-- Python string truthiness for `Optional[str]`: `None` and `""` are
falsy. -/
def optStrTruthy : Option String → Bool
  | none => false
  | some s => !s.isEmpty

/-- `needle` occurs as a contiguous substring of `hay`. -/
def containsSub (hay needle : List Char) : Bool :=
  hay.tails.any (fun t => needle.isPrefixOf t)

/-- The alternatives of `SPAM_BIO_PATTERN`, in source order; `https?://`
is expanded into its two matches. -/
def SPAM_BIO_SUBSTRINGS : List (List Char) :=
  [ "t.me/".toList
  , "telegram.me/".toList
  , "http://".toList
  , "https://".toList
  , "airdrop".toList
  , "crypto".toList
  , "profit".toList
  , "casino".toList
  , "scommesse".toList
  , "pump".toList
  , "guadagno".toList ]

/-- `SPAM_BIO_PATTERN.search(bio)` with `re.IGNORECASE`: some alternative
occurs in the lowercased text (ASCII case folding). -/
def spam_bio_matches (bio : String) : Bool :=
  SPAM_BIO_SUBSTRINGS.any (fun p => containsSub (bio.toList.map Char.toLower) p)

/-- `\d{4,}`: four consecutive decimal digits occur. -/
def hasDigitRun4 : List Char → Bool
  | a :: b :: c :: d :: rest =>
      (a.isDigit && b.isDigit && c.isDigit && d.isDigit) ||
        hasDigitRun4 (b :: c :: d :: rest)
  | _ => false

/-- `(.)\2{3,}`: some character occurs four times consecutively. -/
def hasRepeatRun4 : List Char → Bool
  | a :: b :: c :: d :: rest =>
      (a == b && a == c && a == d) || hasRepeatRun4 (b :: c :: d :: rest)
  | _ => false

/-- Python `str.strip()`: drop leading and trailing whitespace. -/
def stripWhitespace (s : List Char) : List Char :=
  ((s.dropWhile Char.isWhitespace).reverse.dropWhile Char.isWhitespace).reverse

/-- `name_looks_suspicious` from `src/main.py`: build
`f"{first_name} {last_name or ''}".strip().lower()`, drop the spaces, and
flag names that are shorter than 4 characters or match
`SUSPICIOUS_NAME_PATTERN`. -/
def name_looks_suspicious (u : User) : Bool :=
  let full_name :=
    (stripWhitespace ((u.first_name ++ " " ++ (u.last_name.getD "")).toList)).map
      Char.toLower
  let compact := full_name.filter (fun c => c ≠ ' ')
  if compact.length < 4 then true
  else hasDigitRun4 compact || hasRepeatRun4 compact

/-- `build_risk_summary` from `src/main.py`. -/
def build_risk_summary (score : Int) (reasons : List String) : String :=
  if reasons.isEmpty then "risk_score=" ++ toString score ++ "; reasons=none"
  else "risk_score=" ++ toString score ++ "; reasons=" ++
    String.intercalate "; " reasons

/-- `JoinGuardBot.assess_risk` from `src/main.py`.  The two awaited
profile-signal lookups are passed in: `has_photo` is the result of
`_has_profile_photo` (`none` when the Telegram call failed), `bio` the
result of `_fetch_user_bio` (`none` when unavailable).  The estimated
age is passed in as computed by `estimate_account_age_days`.  The
function is total: a failed lookup merely leaves its rule untriggered. -/
def assess_risk (u : User) (estimated_age_days : Int) (has_photo : Option Bool)
    (bio : Option String) (min_account_age_days : Int) : RiskAssessment :=
  let st0 : Int × List String :=
    (0, ["eta_account_stimata=" ++ toString estimated_age_days ++ "g"])
  let st1 := if u.is_bot then (st0.1 + 10, st0.2 ++ ["account_bot"]) else st0
  let st2 :=
    if estimated_age_days < min_account_age_days then
      (st1.1 + 5, st1.2 ++
        ["eta_sotto_soglia(" ++ toString estimated_age_days ++ "<" ++
          toString min_account_age_days ++ ")"])
    else st1
  let st3 :=
    if !optStrTruthy u.username then (st2.1 + 3, st2.2 ++ ["username_assente"])
    else st2
  let st4 :=
    if name_looks_suspicious u then (st3.1 + 2, st3.2 ++ ["nome_sospetto"])
    else st3
  let st5 :=
    if has_photo == some false then (st4.1 + 2, st4.2 ++ ["foto_profilo_assente"])
    else st4
  let st6 :=
    if optStrTruthy bio && spam_bio_matches (bio.getD "") then
      (st5.1 + 3, st5.2 ++ ["bio_con_pattern_spam"])
    else st5
  { estimated_age_days := estimated_age_days, score := st6.1, reasons := st6.2 }

/-- The arithmetic operator drawn by `random.choice` in
`generate_captcha`. -/
inductive CaptchaOp
  | add
  | sub
  | mul
deriving DecidableEq

/-- Evaluate the drawn operator. -/
def applyOp : CaptchaOp → Int → Int → Int
  | .add, a, b => a + b
  | .sub, a, b => a - b
  | .mul, a, b => a * b

/-- Operator symbol used in the question text. -/
def opSymbol : CaptchaOp → String
  | .add => "+"
  | .sub => "-"
  | .mul => "*"

/-- Result type of `generate_captcha`. -/
structure CaptchaResult where
  question : String
  answer : Int
  options : List Int
deriving DecidableEq

/-- The `while len(options) < 4` loop of `generate_captcha`: add
`answer + offset` for each drawn offset, skipping duplicates (Python set
semantics, modelled in insertion order), until four values exist. -/
def fillOptions (answer : Int) : List Int → List Int → List Int
  | opts, [] => opts
  | opts, off :: rest =>
      if opts.length = 4 then opts
      else
        let candidate := answer + off
        if candidate ∈ opts then fillOptions answer opts rest
        else fillOptions answer (opts ++ [candidate]) rest

/-- `generate_captcha` from `src/main.py`.  The `random.randint` operand
draws, the `random.choice` operator draw and the stream of
`random.randint(-noise_limit, noise_limit)` decoy offsets are passed in
explicitly (`difficulty` only selects their ranges in the source); the
final `random.shuffle` only permutes the candidate list and is treated
by the theorems via arbitrary permutations.  Returns `none` when the
offset stream is exhausted before four distinct candidates exist (the
source would keep drawing). -/
def generate_captcha (difficulty : String) (first second : Int)
    (operation : CaptchaOp) (offsets : List Int) : Option CaptchaResult :=
  let _ := difficulty
  let ops :=
    if operation = .sub ∧ second > first then (second, first) else (first, second)
  let answer := applyOp operation ops.1 ops.2
  let options := fillOptions answer [answer] offsets
  if options.length = 4 then
    some
      { question :=
          toString ops.1 ++ " " ++ opSymbol operation ++ " " ++ toString ops.2 ++
            " = ?"
        answer := answer
        options := options }
  else none

/-- The validation in `on_captcha_callback` (line 848):
`selected_answer == expected_answer`, strict equality. -/
def validate_captcha (expected submitted : Int) : Bool :=
  submitted == expected

/-- User-visible outcome of `on_captcha_callback`. -/
inductive CapResp
  | not_yours
  | already_processed
  | approved_ok
  | approve_failed_retry
  | limit_declined
  | wrong_retry
deriving DecidableEq

/-- Result of one `on_captcha_callback` run on the record it targets:
the stored record afterwards, the response shown, and which Decision
Executor operations were invoked. -/
structure CapOutcome where
  record : JoinRecord
  resp : CapResp
  admit_called : Bool
  reject_called : Bool
deriving DecidableEq

/-- `JoinGuardBot.on_captcha_callback` from `src/main.py`, for a found
record (payload parsing and the unknown-id case return early without
touching any record).  `approve_ok` / `reject_ok` are the outcomes the
Decision Executor calls would report if invoked; `new_question` /
`new_answer` stand for the freshly generated captcha of the retry
branch. -/
def on_captcha_callback (r : JoinRecord) (actor_id selected_answer : Int)
    (approve_ok reject_ok : Bool) (new_question : String) (new_answer : Int)
    (now : Int) (s : Settings) : CapOutcome :=
  if r.user_id ≠ actor_id then
    ⟨r, .not_yours, false, false⟩
  else if r.status ≠ .pending_captcha then
    ⟨r, .already_processed, false, false⟩
  else
    let max_attempts :=
      if r.captcha_max_attempts = 0 then s.max_captcha_attempts
      else r.captcha_max_attempts
    let captcha_difficulty :=
      if r.captcha_difficulty = "" then "normal" else r.captcha_difficulty
    let expected_answer := r.captcha_answer.getD 0
    if validate_captcha expected_answer selected_answer then
      if approve_ok then
        ⟨Storage.complete r .approved none now ("captcha_passed:" ++ captcha_difficulty),
          .approved_ok, true, false⟩
      else
        ⟨r, .approve_failed_retry, true, false⟩
    else
      let r1 := Storage.increment_captcha_attempts r
      if max_attempts ≤ r1.captcha_attempts then
        if reject_ok then
          ⟨Storage.complete r1 .declined none now
              ("captcha_failed:" ++ captcha_difficulty),
            .limit_declined, false, true⟩
        else
          ⟨r1, .limit_declined, false, true⟩
      else
        ⟨Storage.refresh_captcha r1 new_question new_answer, .wrong_retry, false, false⟩

/-- Parsed admin callback action (`parse_admin_callback`). -/
inductive AdmAction
  | approve
  | decline
deriving DecidableEq

/-- User-visible outcome of `on_admin_callback`. -/
inductive AdmResp
  | not_admin
  | already_processed
  | approved_ok
  | approve_failed
  | declined_ok
  | decline_failed
deriving DecidableEq

/-- Result of one `on_admin_callback` run on the record it targets. -/
structure AdmOutcome where
  record : JoinRecord
  resp : AdmResp
  admit_called : Bool
  reject_called : Bool
deriving DecidableEq

/-- `JoinGuardBot.on_admin_callback` from `src/main.py`, for a found
record (payload parsing and the unknown-id case return early without
touching any record). -/
def on_admin_callback (r : JoinRecord) (admin_id : Int) (is_admin : Bool)
    (action : AdmAction) (approve_ok reject_ok : Bool) (now : Int) : AdmOutcome :=
  if ¬is_admin then
    ⟨r, .not_admin, false, false⟩
  else if r.status ≠ .pending_admin then
    ⟨r, .already_processed, false, false⟩
  else
    match action with
    | .approve =>
        if approve_ok then
          ⟨Storage.complete r .approved (some admin_id) now "manual_approve",
            .approved_ok, true, false⟩
        else
          ⟨r, .approve_failed, true, false⟩
    | .decline =>
        if reject_ok then
          ⟨Storage.complete r .declined (some admin_id) now "manual_decline",
            .declined_ok, false, true⟩
        else
          ⟨r, .decline_failed, false, true⟩

/-- `JoinGuardBot.on_join_request` from `src/main.py`: upsert the record,
persist the risk profile, then route by moderation mode and score.  The
generated captchas for the two captcha branches are passed in as
question/answer pairs. -/
def on_join_request (st : Storage) (jr : JoinRequestEvent) (mode : String)
    (risk : RiskAssessment) (hardCaptcha normalCaptcha : String × Int) (now : Int)
    (s : Settings) : Storage :=
  if jr.channel_id ≠ s.channel_id then st
  else
    let p := Storage.create_or_refresh_request st jr now
    let st2 := p.1.updateById p.2
      (fun r => Storage.set_risk_profile r risk.estimated_age_days risk.score
        risk.reasons)
    if mode = "manual" ∨ s.risk_score_to_admin ≤ risk.score then
      let route_reason := if mode = "manual" then "manual_mode" else "risk_threshold_admin"
      st2.updateById p.2
        (fun r => Storage.mark_pending_admin r
          ("route=" ++ route_reason ++ "; " ++ build_risk_summary risk.score risk.reasons))
    else if s.risk_score_to_hard_captcha ≤ risk.score then
      st2.updateById p.2
        (fun r => Storage.mark_pending_captcha r hardCaptcha.1 hardCaptcha.2
          (min s.max_captcha_attempts s.hard_captcha_attempts) "hard")
    else
      st2.updateById p.2
        (fun r => Storage.mark_pending_captcha r normalCaptcha.1 normalCaptcha.2
          s.max_captcha_attempts "normal")

/-- Kind of a terminal-transition handler run racing on one record:
a captcha success (`on_captcha_callback`, correct answer) or a reviewer
action (`on_admin_callback`). -/
inductive RaceKind
  | challenge_success
  | reviewer_approve
  | reviewer_decline
deriving DecidableEq

/-- The status the handler's entry check requires. -/
def RaceKind.preStatus : RaceKind → Status
  | .challenge_success => .pending_captcha
  | .reviewer_approve => .pending_admin
  | .reviewer_decline => .pending_admin

/-- The terminal status the handler writes via `Storage.complete`. -/
def RaceKind.outcomeStatus : RaceKind → Status
  | .challenge_success => .approved
  | .reviewer_approve => .approved
  | .reviewer_decline => .declined

/-- Whether the handler invokes the Decision Executor's admit (`true`) or
reject (`false`). -/
def RaceKind.admitNeeded : RaceKind → Bool
  | .challenge_success => true
  | .reviewer_approve => true
  | .reviewer_decline => false

/-- Progress of one handler run.  `ready`: not yet reached its entry
check.  `called`: entry check passed and the awaited Decision Executor
call succeeded — the `await` is the suspension point where the other
handler may interleave.  `done_committed`: `Storage.complete` executed.
`done_aborted`: entry check failed, responded "already processed". -/
inductive Phase
  | ready
  | called
  | done_committed
  | done_aborted
deriving DecidableEq

/-- Shared state of two handler runs racing on the same record: the
record's status, each run's progress, the list of terminal statuses
written by `Storage.complete` (in commit order) and the number of
Decision Executor calls issued. -/
structure RaceState where
  status : Status
  phase1 : Phase
  phase2 : Phase
  writes : List Status
  admit_calls : Nat
  reject_calls : Nat
deriving DecidableEq

/-- One atomic stretch of a handler of kind `k` currently at `ph`:
`ready` → entry check against the current status (abort on mismatch,
otherwise issue the executor call); `called` → write the terminal status
unconditionally (`Storage.complete` re-checks nothing). -/
def stepAction (k : RaceKind) (ph : Phase) (st : RaceState) : Phase × RaceState :=
  match ph with
  | .ready =>
      if st.status = k.preStatus then
        (.called,
          { st with
            admit_calls := st.admit_calls + (if k.admitNeeded then 1 else 0)
            reject_calls := st.reject_calls + (if k.admitNeeded then 0 else 1) })
      else (.done_aborted, st)
  | .called =>
      (.done_committed,
        { st with status := k.outcomeStatus, writes := st.writes ++ [k.outcomeStatus] })
  | _ => (ph, st)

/-- Scheduler step: `true` advances handler 1, `false` handler 2. -/
def raceStep (k1 k2 : RaceKind) (which : Bool) (st : RaceState) : RaceState :=
  if which then
    let p := stepAction k1 st.phase1 st
    { p.2 with phase1 := p.1 }
  else
    let p := stepAction k2 st.phase2 st
    { p.2 with phase2 := p.1 }

/-- Run a schedule of interleaved steps. -/
def runRace (k1 k2 : RaceKind) : List Bool → RaceState → RaceState
  | [], st => st
  | b :: rest, st => runRace k1 k2 rest (raceStep k1 k2 b st)

/-- Both handlers pending on a record with the given status. -/
def initRace (s0 : Status) : RaceState :=
  { status := s0, phase1 := .ready, phase2 := .ready, writes := [],
    admit_calls := 0, reject_calls := 0 }

/-- Record states (with a count of Decision Executor reject calls)
reachable from `r0` through `on_captcha_callback` runs in which every
invoked reject call succeeds (`reject_ok = true`); approve calls may
succeed or fail. -/
inductive CaptchaReach (s : Settings) (r0 : JoinRecord) :
    JoinRecord → Nat → Prop
  | refl : CaptchaReach s r0 r0 0
  | step (r : JoinRecord) (c : Nat) (actor sel : Int) (aOk : Bool) (q : String)
      (na : Int) (now : Int) :
      CaptchaReach s r0 r c →
      CaptchaReach s r0
        (on_captcha_callback r actor sel aOk true q na now s).record
        (c + (if (on_captcha_callback r actor sel aOk true q na now s).reject_called
          then 1 else 0))

/-- The effect of the upsert's `DO UPDATE` clause on a row: the profile
snapshot matches the incoming request and every risk, challenge and
decision column is back at its initial value. -/
def refreshedState (rr : JoinRecord) (jr : JoinRequestEvent) (now : Int) : Prop :=
  rr.user_chat_id = jr.user_chat_id ∧ rr.username = jr.username ∧
    rr.first_name = jr.first_name ∧ rr.last_name = jr.last_name ∧
    rr.submitted_at = now ∧ rr.status = .new ∧ rr.is_suspicious = false ∧
    rr.estimated_age_days = none ∧ rr.risk_score = 0 ∧ rr.risk_reasons = none ∧
    rr.captcha_question = none ∧ rr.captcha_answer = none ∧
    rr.captcha_attempts = 0 ∧ rr.captcha_max_attempts = 3 ∧
    rr.captcha_difficulty = "normal" ∧ rr.decision_by = none ∧
    rr.decision_at = none ∧ rr.reason = none

/-- Concrete configuration used by witnesses (the documented defaults of
`Settings.from_env`). -/
def sampleSettings : Settings :=
  { channel_id := -1001, min_account_age_days := 30, max_captcha_attempts := 3,
    risk_score_to_admin := 7, risk_score_to_hard_captcha := 4,
    hard_captcha_attempts := 1 }

/-- Concrete record used by witnesses and counterexamples. -/
def sampleRecord (st : Status) : JoinRecord :=
  { id := 1, channel_id := -1001, user_id := 42, user_chat_id := 42,
    username := some "mario", first_name := "Mario", last_name := none,
    submitted_at := 0, status := st, is_suspicious := false,
    estimated_age_days := some 100, risk_score := 0, risk_reasons := some [],
    captcha_question := some "2 + 2 = ?", captcha_answer := some 4,
    captcha_attempts := 0, captcha_max_attempts := 3,
    captcha_difficulty := "normal", decision_by := none, decision_at := none,
    reason := none }

set_option maxHeartbeats 2000000 in
/-- C6: the estimated creation timestamp is the first anchor's timestamp
for identifiers at or below the first anchor, the linear interpolation
`left_t + (id - left_id) / (right_id - left_id) * (right_t - left_t)`
for identifiers bracketed by two consecutive anchors, the last anchor's
timestamp (clamped) beyond the last anchor, and the derived age in days
is `max 0 ⌊elapsed days⌋`. -/
theorem C6_estimate_piecewise_linear :
    (∀ userId : Int, userId ≤ (ID_DATE_ANCHORS.headD (0, 0)).1 →
      estimate_created_at_from_user_id userId = (ID_DATE_ANCHORS.headD (0, 0)).2) ∧
    (∀ k : Nat, k + 1 < ID_DATE_ANCHORS.length → ∀ userId : Int,
      (ID_DATE_ANCHORS.getD k (0, 0)).1 ≤ userId →
      userId ≤ (ID_DATE_ANCHORS.getD (k + 1) (0, 0)).1 →
      estimate_created_at_from_user_id userId =
        (ID_DATE_ANCHORS.getD k (0, 0)).2 +
          (((userId - (ID_DATE_ANCHORS.getD k (0, 0)).1 : Int) : ℚ) /
              (((ID_DATE_ANCHORS.getD (k + 1) (0, 0)).1 -
                  (ID_DATE_ANCHORS.getD k (0, 0)).1 : Int) : ℚ)) *
            ((ID_DATE_ANCHORS.getD (k + 1) (0, 0)).2 -
              (ID_DATE_ANCHORS.getD k (0, 0)).2)) ∧
    (∀ userId : Int, (ID_DATE_ANCHORS.getLastD (0, 0)).1 < userId →
      estimate_created_at_from_user_id userId = (ID_DATE_ANCHORS.getLastD (0, 0)).2) ∧
    (∀ userId : Int, ∀ now : ℚ, estimate_account_age_days userId now =
      max 0 ⌊(now - estimate_created_at_from_user_id userId) / 86400⌋) := by
  refine ⟨?_, ?_, ?_, ?_⟩
  · intro userId h
    simp only [ID_DATE_ANCHORS, List.headD] at h ⊢
    rw [estimate_created_at_from_user_id, if_pos]
    · simp [ID_DATE_ANCHORS]
    · simpa [ID_DATE_ANCHORS] using h
  · intro k hk userId h1 h2
    have hk7 : k < 7 := by
      have := hk
      simp only [ID_DATE_ANCHORS, List.length] at this
      omega
    interval_cases k <;>
      simp only [ID_DATE_ANCHORS, List.getD, List.get?, List.headD, List.getLastD,
        Option.getD, estimate_created_at_from_user_id, interpolateAnchors] at h1 h2 ⊢ <;>
      split_ifs <;>
      first
        | (exfalso; omega)
        | (push_cast; ring1)
        | (have hpin : userId = (1 : Int) := by omega
           subst hpin
           norm_num)
        | (have hpin : userId = (1000000000 : Int) := by omega
           subst hpin
           norm_num)
        | (have hpin : userId = (2000000000 : Int) := by omega
           subst hpin
           norm_num)
        | (have hpin : userId = (3000000000 : Int) := by omega
           subst hpin
           norm_num)
        | (have hpin : userId = (4000000000 : Int) := by omega
           subst hpin
           norm_num)
        | (have hpin : userId = (5000000000 : Int) := by omega
           subst hpin
           norm_num)
        | (have hpin : userId = (6000000000 : Int) := by omega
           subst hpin
           norm_num)
  · intro userId h
    have hl : (ID_DATE_ANCHORS.getLastD (0, 0)).1 = (7000000000 : Int) := by
      norm_num [ID_DATE_ANCHORS]
    rw [hl] at h
    simp only [estimate_created_at_from_user_id, interpolateAnchors, ID_DATE_ANCHORS,
      List.headD]
    split_ifs <;> first | (exfalso; omega) | rfl
  · intro userId now
    rfl

/-- Witness for C6 at concrete identifiers: below the first anchor, in
the interior of the second segment, and beyond the last anchor. -/
theorem C6_estimate_piecewise_linear_witness :
    estimate_created_at_from_user_id 0 = 1376438400 ∧
    estimate_created_at_from_user_id 1500000000 =
      1483228800 + ((500000000 : ℚ) / 1000000000) * 63072000 ∧
    estimate_created_at_from_user_id 7000000001 = 1751328000 ∧
    estimate_account_age_days 0 1376524800 =
      max 0 ⌊((1376524800 : ℚ) - estimate_created_at_from_user_id 0) / 86400⌋ := by
  refine ⟨?_, ?_, ?_, C6_estimate_piecewise_linear.2.2.2 0 1376524800⟩
  · have h := C6_estimate_piecewise_linear.1 0 (by norm_num [ID_DATE_ANCHORS])
    rw [h]
    norm_num [ID_DATE_ANCHORS]
  · have h := C6_estimate_piecewise_linear.2.1 1 (by norm_num [ID_DATE_ANCHORS])
      1500000000 (by norm_num [ID_DATE_ANCHORS]) (by norm_num [ID_DATE_ANCHORS])
    rw [h]
    norm_num [ID_DATE_ANCHORS]
  · have h := C6_estimate_piecewise_linear.2.2.1 7000000001 (by norm_num [ID_DATE_ANCHORS])
    rw [h]
    norm_num [ID_DATE_ANCHORS]

set_option maxHeartbeats 4000000 in
/-- Going from an identifier to its successor never decreases the
estimated creation timestamp. -/
lemma estimate_created_at_succ_mono (id : Int) :
    estimate_created_at_from_user_id id ≤ estimate_created_at_from_user_id (id + 1) := by
  simp only [estimate_created_at_from_user_id, interpolateAnchors, ID_DATE_ANCHORS,
    List.headD]
  split_ifs <;>
    (try simp only [Option.getD]) <;>
    first
      | (exfalso; omega)
      | (push_cast; linarith)
      | (have hpin : id = (1 : Int) := by omega
         subst hpin
         norm_num)
      | (have hpin : id = (1000000000 : Int) := by omega
         subst hpin
         norm_num)
      | (have hpin : id = (2000000000 : Int) := by omega
         subst hpin
         norm_num)
      | (have hpin : id = (3000000000 : Int) := by omega
         subst hpin
         norm_num)
      | (have hpin : id = (4000000000 : Int) := by omega
         subst hpin
         norm_num)
      | (have hpin : id = (5000000000 : Int) := by omega
         subst hpin
         norm_num)
      | (have hpin : id = (6000000000 : Int) := by omega
         subst hpin
         norm_num)
      | (have hpin : id = (7000000000 : Int) := by omega
         subst hpin
         norm_num)

/-- C10: the estimated creation timestamp is monotonically
non-decreasing in the applicant identifier, across and between all
anchors. -/
theorem C10_estimate_monotone :
    ∀ id1 id2 : Int, id1 ≤ id2 →
      estimate_created_at_from_user_id id1 ≤ estimate_created_at_from_user_id id2 := by
  intro id1 id2 h
  refine @Int.le_induction
    (fun n => estimate_created_at_from_user_id id1 ≤ estimate_created_at_from_user_id n)
    id1 ?_ ?_ id2 h
  · exact le_rfl
  · intro n hn ih
    exact le_trans ih (estimate_created_at_succ_mono n)

/-- Witness for C10 at a concrete pair of identifiers. -/
theorem C10_estimate_monotone_witness :
    estimate_created_at_from_user_id 500000000 ≤
      estimate_created_at_from_user_id 6500000000 :=
  C10_estimate_monotone 500000000 6500000000 (by norm_num)

set_option maxHeartbeats 1000000 in
/-- C5: `assess_risk` returns the exact sum of the triggered rule
weights (bot +10, young account +5, no handle +3, suspicious name +2,
photo confirmed absent +2, spam biography +3); the reasons list starts
with the estimated-age reason and lists the triggered tags in the fixed
rule order; an unavailable photo signal (`none`) or an unavailable
biography scores exactly like the harmless value, i.e. the rule is not
triggered and nothing is raised (the function is total). -/
theorem C5_assess_risk_sum_and_order :
    ∀ (u : User) (age : Int) (hasPhoto : Option Bool) (bio : Option String)
      (minAge : Int),
      (assess_risk u age hasPhoto bio minAge).score =
          (if u.is_bot then 10 else 0) + (if age < minAge then 5 else 0) +
            (if !optStrTruthy u.username then 3 else 0) +
            (if name_looks_suspicious u then 2 else 0) +
            (if hasPhoto == some false then 2 else 0) +
            (if optStrTruthy bio && spam_bio_matches (bio.getD "") then 3 else 0) ∧
        (assess_risk u age hasPhoto bio minAge).reasons =
          ["eta_account_stimata=" ++ toString age ++ "g"] ++
            (if u.is_bot then ["account_bot"] else []) ++
            (if age < minAge then
              ["eta_sotto_soglia(" ++ toString age ++ "<" ++ toString minAge ++ ")"]
            else []) ++
            (if !optStrTruthy u.username then ["username_assente"] else []) ++
            (if name_looks_suspicious u then ["nome_sospetto"] else []) ++
            (if hasPhoto == some false then ["foto_profilo_assente"] else []) ++
            (if optStrTruthy bio && spam_bio_matches (bio.getD "") then
              ["bio_con_pattern_spam"]
            else []) ∧
        assess_risk u age none bio minAge = assess_risk u age (some true) bio minAge ∧
        assess_risk u age hasPhoto none minAge =
          assess_risk u age hasPhoto (some "") minAge := by
  intro u age hasPhoto bio minAge
  refine ⟨?_, ?_, ?_, ?_⟩
  · simp only [assess_risk]
    split_ifs <;> norm_num
  · simp only [assess_risk]
    split_ifs <;> simp
  · simp [assess_risk]
  · rfl

lemma fillOptions_nodup (answer : Int) (offsets : List Int) :
    ∀ opts : List Int, opts.Nodup → (fillOptions answer opts offsets).Nodup := by
  induction offsets with
  | nil =>
      intro opts h
      simpa [fillOptions] using h
  | cons off rest ih =>
      intro opts h
      simp only [fillOptions]
      split_ifs with h4 hmem
      · exact h
      · exact ih opts h
      · refine ih _ ?_
        simp [List.nodup_append, h, hmem]

lemma fillOptions_subset (answer : Int) (offsets : List Int) :
    ∀ opts : List Int, opts ⊆ fillOptions answer opts offsets := by
  induction offsets with
  | nil =>
      intro opts
      simp [fillOptions]
  | cons off rest ih =>
      intro opts
      simp only [fillOptions]
      split_ifs with h4 hmem
      · exact fun x hx => hx
      · exact ih opts
      · exact fun x hx => ih _ (List.mem_append_left _ hx)

/-- C9: a successful `generate_captcha` returns exactly four pairwise
distinct candidate answers among which the expected answer appears (and
these properties are stable under any display-order permutation, the
`random.shuffle` of the source); for subtraction the operands are
swapped so the answer is non-negative; and the validation used by
`on_captcha_callback` accepts a submission iff it equals the stored
expected answer. -/
theorem C9_generate_validate :
    (∀ (difficulty : String) (first second : Int) (operation : CaptchaOp)
        (offsets : List Int) (result : CaptchaResult),
      generate_captcha difficulty first second operation offsets = some result →
        result.options.length = 4 ∧ result.options.Nodup ∧
          result.answer ∈ result.options ∧
          (∀ shuffled : List Int, shuffled.Perm result.options →
            shuffled.length = 4 ∧ shuffled.Nodup ∧ result.answer ∈ shuffled) ∧
          (operation = .sub → 0 ≤ result.answer)) ∧
    (∀ expected submitted : Int,
      validate_captcha expected submitted = true ↔ submitted = expected) := by
  constructor
  · intro difficulty first second operation offsets result hgen
    simp only [generate_captcha] at hgen
    split_ifs at hgen with hswap hlen hlen2
    · -- swapped operands, four candidates found
      simp only [Option.some.injEq] at hgen
      subst hgen
      obtain ⟨hsub, hgt⟩ := hswap
      refine ⟨hlen, fillOptions_nodup _ _ _ (by simp), ?_, ?_, ?_⟩
      · exact fillOptions_subset _ _ _ (by simp)
      · intro shuffled hperm
        exact ⟨by simpa [hperm.length_eq] using hlen,
          hperm.nodup_iff.mpr (fillOptions_nodup _ _ _ (by simp)),
          hperm.mem_iff.mpr (fillOptions_subset _ _ _ (by simp))⟩
      · intro _
        subst hsub
        simp only [applyOp]
        omega
    · -- operands kept in order, four candidates found
      simp only [Option.some.injEq] at hgen
      subst hgen
      refine ⟨hlen2, fillOptions_nodup _ _ _ (by simp), ?_, ?_, ?_⟩
      · exact fillOptions_subset _ _ _ (by simp)
      · intro shuffled hperm
        exact ⟨by simpa [hperm.length_eq] using hlen2,
          hperm.nodup_iff.mpr (fillOptions_nodup _ _ _ (by simp)),
          hperm.mem_iff.mpr (fillOptions_subset _ _ _ (by simp))⟩
      · intro hop
        subst hop
        have hle : second ≤ first := by
          by_contra hc
          exact hswap ⟨rfl, by omega⟩
        simp only [applyOp]
        omega
  · intro expected submitted
    simp [validate_captcha]

/-- Witness for C9 at a concrete draw: `5 - 3` with decoy offsets
`[1, 2, 3]` yields options `[2, 3, 4, 5]`. -/
theorem C9_generate_validate_witness :
    (generate_captcha "normal" 5 3 .sub [1, 2, 3]).isSome = true ∧
      ∀ result : CaptchaResult,
        generate_captcha "normal" 5 3 .sub [1, 2, 3] = some result →
          result.options.length = 4 ∧ result.options.Nodup ∧
            result.answer ∈ result.options ∧ 0 ≤ result.answer ∧
            validate_captcha result.answer 2 = true := by
  refine ⟨by decide, ?_⟩
  intro result hgen
  obtain ⟨h1, h2, h3, _, h5⟩ :=
    C9_generate_validate.1 "normal" 5 3 .sub [1, 2, 3] result hgen
  refine ⟨h1, h2, h3, h5 rfl, ?_⟩
  have : result = { question := "5 - 3 = ?", answer := 2, options := [2, 3, 4, 5] } := by
    rw [show generate_captcha "normal" 5 3 .sub [1, 2, 3] =
      some { question := "5 - 3 = ?", answer := 2, options := [2, 3, 4, 5] } from by decide]
      at hgen
    exact (Option.some.injEq _ _).mp hgen.symm
  rw [this]
  decide

/-- C8: a challenge or reviewer action on a record that is already
terminal (`approved`/`declined`) is rejected with an already-processed
response, and a challenge answer from an actor other than the record's
applicant is rejected as not-yours; in all these cases no field of the
record is mutated and no Decision Executor call is made. -/
theorem C8_terminal_or_foreign_rejected :
    (∀ (r : JoinRecord) (actor sel : Int) (aOk rOk : Bool) (q : String)
        (na now : Int) (s : Settings),
      (r.status = .approved ∨ r.status = .declined) → r.user_id = actor →
        on_captcha_callback r actor sel aOk rOk q na now s =
          ⟨r, .already_processed, false, false⟩) ∧
    (∀ (r : JoinRecord) (actor sel : Int) (aOk rOk : Bool) (q : String)
        (na now : Int) (s : Settings),
      r.user_id ≠ actor →
        on_captcha_callback r actor sel aOk rOk q na now s =
          ⟨r, .not_yours, false, false⟩) ∧
    (∀ (r : JoinRecord) (adminId : Int) (action : AdmAction) (aOk rOk : Bool)
        (now : Int),
      (r.status = .approved ∨ r.status = .declined) →
        on_admin_callback r adminId true action aOk rOk now =
          ⟨r, .already_processed, false, false⟩) := by
  refine ⟨?_, ?_, ?_⟩
  · intro r actor sel aOk rOk q na now s hterm hid
    have hst : r.status ≠ .pending_captcha := by
      rcases hterm with h | h <;> simp [h]
    simp [on_captcha_callback, hid, hst]
  · intro r actor sel aOk rOk q na now s hne
    simp [on_captcha_callback, hne]
  · intro r adminId action aOk rOk now hterm
    have hst : r.status ≠ .pending_admin := by
      rcases hterm with h | h <;> simp [h]
    simp [on_admin_callback, hst]

/-- Witness for C8 at concrete records. -/
theorem C8_terminal_or_foreign_rejected_witness :
    on_captcha_callback (sampleRecord .approved) 42 4 true true "q" 9 5
        sampleSettings =
      ⟨sampleRecord .approved, .already_processed, false, false⟩ ∧
    on_captcha_callback (sampleRecord .pending_captcha) 7 4 true true "q" 9 5
        sampleSettings =
      ⟨sampleRecord .pending_captcha, .not_yours, false, false⟩ ∧
    on_admin_callback (sampleRecord .declined) 99 true .approve true true 5 =
      ⟨sampleRecord .declined, .already_processed, false, false⟩ :=
  ⟨C8_terminal_or_foreign_rejected.1 (sampleRecord .approved) 42 4 true true "q" 9 5
      sampleSettings (Or.inl rfl) rfl,
    C8_terminal_or_foreign_rejected.2.1 (sampleRecord .pending_captcha) 7 4 true true
      "q" 9 5 sampleSettings (by decide),
    C8_terminal_or_foreign_rejected.2.2 (sampleRecord .declined) 99 .approve true true
      5 (Or.inr rfl)⟩

/-- C1 counterexample: on the captcha path, when the attempt limit is
reached and the Decision Executor's reject call fails, the record is
*not* left unchanged — the attempt counter was already incremented and
persisted — and the caller is shown the "limit reached, request
declined" message rather than a retryable failure. -/
theorem C1_executor_failure_counterexample :
    (on_captcha_callback
          { sampleRecord .pending_captcha with captcha_max_attempts := 1 }
          42 5 true false "q" 9 100 sampleSettings).reject_called = true ∧
      (on_captcha_callback
          { sampleRecord .pending_captcha with captcha_max_attempts := 1 }
          42 5 true false "q" 9 100 sampleSettings).record ≠
        { sampleRecord .pending_captcha with captcha_max_attempts := 1 } ∧
      (on_captcha_callback
          { sampleRecord .pending_captcha with captcha_max_attempts := 1 }
          42 5 true false "q" 9 100 sampleSettings).record.captcha_attempts = 1 ∧
      (on_captcha_callback
          { sampleRecord .pending_captcha with captcha_max_attempts := 1 }
          42 5 true false "q" 9 100 sampleSettings).record.status =
        .pending_captcha ∧
      (on_captcha_callback
          { sampleRecord .pending_captcha with captcha_max_attempts := 1 }
          42 5 true false "q" 9 100 sampleSettings).resp = .limit_declined := by
  decide

/-- C1 (amended): a terminal status is written only after the matching
Decision Executor call was invoked and succeeded, in both handlers; on a
failed admit/reject the record keeps its non-terminal status.  For
reviewer actions and for the captcha success path a failed call leaves
every field of the record unchanged and the caller is told the action
failed so it can be retried; on the captcha attempt-limit path, however,
a failed reject leaves the record with the attempt counter already
incremented (status still `pending_captcha`) and the caller is shown the
declined message, not a failure. -/
theorem C1_terminal_requires_executor_success :
    (∀ (r : JoinRecord) (actor sel : Int) (aOk rOk : Bool) (q : String)
        (na now : Int) (s : Settings),
      ((on_captcha_callback r actor sel aOk rOk q na now s).record.status = .approved ∧
          r.status ≠ .approved) →
        (on_captcha_callback r actor sel aOk rOk q na now s).admit_called = true ∧
          aOk = true) ∧
    (∀ (r : JoinRecord) (actor sel : Int) (aOk rOk : Bool) (q : String)
        (na now : Int) (s : Settings),
      ((on_captcha_callback r actor sel aOk rOk q na now s).record.status = .declined ∧
          r.status ≠ .declined) →
        (on_captcha_callback r actor sel aOk rOk q na now s).reject_called = true ∧
          rOk = true) ∧
    (∀ (r : JoinRecord) (adminId : Int) (isAdm : Bool) (action : AdmAction)
        (aOk rOk : Bool) (now : Int),
      ((on_admin_callback r adminId isAdm action aOk rOk now).record.status = .approved ∧
          r.status ≠ .approved) →
        (on_admin_callback r adminId isAdm action aOk rOk now).admit_called = true ∧
          aOk = true) ∧
    (∀ (r : JoinRecord) (adminId : Int) (isAdm : Bool) (action : AdmAction)
        (aOk rOk : Bool) (now : Int),
      ((on_admin_callback r adminId isAdm action aOk rOk now).record.status = .declined ∧
          r.status ≠ .declined) →
        (on_admin_callback r adminId isAdm action aOk rOk now).reject_called = true ∧
          rOk = true) ∧
    (∀ (r : JoinRecord) (adminId : Int) (rOk : Bool) (now : Int),
      r.status = .pending_admin →
        on_admin_callback r adminId true .approve false rOk now =
          ⟨r, .approve_failed, true, false⟩) ∧
    (∀ (r : JoinRecord) (adminId : Int) (aOk : Bool) (now : Int),
      r.status = .pending_admin →
        on_admin_callback r adminId true .decline aOk false now =
          ⟨r, .decline_failed, false, true⟩) ∧
    (∀ (r : JoinRecord) (actor sel : Int) (rOk : Bool) (q : String)
        (na now : Int) (s : Settings),
      r.user_id = actor → r.status = .pending_captcha →
        validate_captcha (r.captcha_answer.getD 0) sel = true →
        on_captcha_callback r actor sel false rOk q na now s =
          ⟨r, .approve_failed_retry, true, false⟩) ∧
    (∀ (r : JoinRecord) (actor sel : Int) (aOk : Bool) (q : String)
        (na now : Int) (s : Settings),
      r.user_id = actor → r.status = .pending_captcha →
        validate_captcha (r.captcha_answer.getD 0) sel = false →
        (if r.captcha_max_attempts = 0 then s.max_captcha_attempts
          else r.captcha_max_attempts) ≤ r.captcha_attempts + 1 →
        on_captcha_callback r actor sel aOk false q na now s =
          ⟨{ r with captcha_attempts := r.captcha_attempts + 1 },
            .limit_declined, false, true⟩) := by
  refine ⟨?_, ?_, ?_, ?_, ?_, ?_, ?_, ?_⟩
  · intro r actor sel aOk rOk q na now s h
    simp only [on_captcha_callback, Storage.complete,
      Storage.increment_captcha_attempts, Storage.refresh_captcha] at h ⊢
    split_ifs at h ⊢ <;> simp_all
  · intro r actor sel aOk rOk q na now s h
    simp only [on_captcha_callback, Storage.complete,
      Storage.increment_captcha_attempts, Storage.refresh_captcha] at h ⊢
    split_ifs at h ⊢ <;> simp_all
  · intro r adminId isAdm action aOk rOk now h
    simp only [on_admin_callback, Storage.complete] at h ⊢
    cases action <;> split_ifs at h ⊢ <;> simp_all
  · intro r adminId isAdm action aOk rOk now h
    simp only [on_admin_callback, Storage.complete] at h ⊢
    cases action <;> split_ifs at h ⊢ <;> simp_all
  · intro r adminId rOk now hpend
    simp [on_admin_callback, hpend]
  · intro r adminId aOk now hpend
    simp [on_admin_callback, hpend]
  · intro r actor sel rOk q na now s hid hpend hval
    simp [on_captcha_callback, hid, hpend, hval]
  · intro r actor sel aOk q na now s hid hpend hval hlim
    simp [on_captcha_callback, hid, hpend, hval, Storage.increment_captcha_attempts,
      hlim]

/-- Witness for C1 at concrete inputs: a failed admit on a reviewer
approval and on a captcha success both leave the record unchanged and
report failure. -/
theorem C1_terminal_requires_executor_success_witness :
    on_admin_callback (sampleRecord .pending_admin) 99 true .approve false true 5 =
      ⟨sampleRecord .pending_admin, .approve_failed, true, false⟩ ∧
    on_captcha_callback (sampleRecord .pending_captcha) 42 4 false true "q" 9 5
        sampleSettings =
      ⟨sampleRecord .pending_captcha, .approve_failed_retry, true, false⟩ :=
  ⟨C1_terminal_requires_executor_success.2.2.2.2.1 (sampleRecord .pending_admin)
      99 true 5 rfl,
    C1_terminal_requires_executor_success.2.2.2.2.2.2.1
      (sampleRecord .pending_captcha) 42 4 true "q" 9 5 sampleSettings rfl rfl
      (by decide)⟩

/-- C2 counterexample: with `captcha_max_attempts = 1`, two incorrect
answers whose forced reject calls both fail drive `captcha_attempts` to
2, exceeding the allowed limit, and invoke the Decision Executor's
reject twice for the same record. -/
theorem C2_attempts_exceed_counterexample :
    (on_captcha_callback
          (on_captcha_callback
              { sampleRecord .pending_captcha with captcha_max_attempts := 1 }
              42 5 true false "q" 9 100 sampleSettings).record
          42 7 true false "q2" 9 101 sampleSettings).record.captcha_attempts = 2 ∧
      (on_captcha_callback
          (on_captcha_callback
              { sampleRecord .pending_captcha with captcha_max_attempts := 1 }
              42 5 true false "q" 9 100 sampleSettings).record
          42 7 true false "q2" 9 101 sampleSettings).record.captcha_max_attempts = 1 ∧
      (on_captcha_callback
          { sampleRecord .pending_captcha with captcha_max_attempts := 1 }
          42 5 true false "q" 9 100 sampleSettings).reject_called = true ∧
      (on_captcha_callback
          (on_captcha_callback
              { sampleRecord .pending_captcha with captcha_max_attempts := 1 }
              42 5 true false "q" 9 100 sampleSettings).record
          42 7 true false "q2" 9 101 sampleSettings).reject_called = true := by
  decide

lemma captcha_limit_forces_decline (s : Settings) (r : JoinRecord)
    (hmax : 1 ≤ r.captcha_max_attempts) (actor sel : Int) (aOk : Bool) (q : String)
    (na now : Int) (hst : r.status = .pending_captcha) (hid : r.user_id = actor)
    (hval : validate_captcha (r.captcha_answer.getD 0) sel = false)
    (hlim : r.captcha_max_attempts ≤ r.captcha_attempts + 1) :
    (on_captcha_callback r actor sel aOk true q na now s).record.status = .declined ∧
      (on_captcha_callback r actor sel aOk true q na now s).reject_called = true := by
  have hmz : ¬r.captcha_max_attempts = 0 := by omega
  simp [on_captcha_callback, hid, hst, hval, hmz,
    Storage.increment_captcha_attempts, Storage.complete, hlim]

/-- C2 (amended): starting from a freshly routed `pending_captcha`
record (`captcha_attempts = 0`, `captcha_max_attempts ≥ 1`), provided
every forced reject call succeeds (approve calls may fail), every
reachable state satisfies `captcha_attempts ≤ captcha_max_attempts`; a
still-pending record has strictly fewer used attempts than allowed and
no reject was ever invoked; a declined record saw the reject invoked
exactly once; and an incorrect answer that brings the used attempts up
to the limit transitions the record to `declined` with the reject
invoked on that step.  (Without the success assumption the bound fails,
see the counterexample.) -/
theorem C2_attempts_never_exceed_allowed :
    ∀ (s : Settings) (r0 : JoinRecord),
      r0.status = .pending_captcha → r0.captcha_attempts = 0 →
      1 ≤ r0.captcha_max_attempts →
      (∀ (r : JoinRecord) (c : Nat), CaptchaReach s r0 r c →
        r.captcha_attempts ≤ r.captcha_max_attempts ∧
          1 ≤ r.captcha_max_attempts ∧
          (r.status = .pending_captcha →
            r.captcha_attempts < r.captcha_max_attempts ∧ c = 0) ∧
          (r.status = .declined → c = 1) ∧
          (r.status = .approved → c = 0)) ∧
      (∀ (r : JoinRecord) (c : Nat), CaptchaReach s r0 r c →
        ∀ (actor sel : Int) (aOk : Bool) (q : String) (na now : Int),
          r.status = .pending_captcha → r.user_id = actor →
          validate_captcha (r.captcha_answer.getD 0) sel = false →
          r.captcha_max_attempts ≤ r.captcha_attempts + 1 →
          (on_captcha_callback r actor sel aOk true q na now s).record.status =
              .declined ∧
            (on_captcha_callback r actor sel aOk true q na now s).reject_called =
              true) := by
  intro s r0 h1 h2 h3
  have inv : ∀ (r : JoinRecord) (c : Nat), CaptchaReach s r0 r c →
      r.captcha_attempts ≤ r.captcha_max_attempts ∧
        1 ≤ r.captcha_max_attempts ∧
        (r.status = .pending_captcha →
          r.captcha_attempts < r.captcha_max_attempts ∧ c = 0) ∧
        (r.status = .declined → c = 1) ∧
        (r.status = .approved → c = 0) := by
    intro r c h
    induction h with
    | refl =>
        refine ⟨by omega, h3, fun _ => ⟨by omega, rfl⟩, ?_, ?_⟩ <;>
          simp [h1]
    | step r c actor sel aOk q na now hr ih =>
        by_cases hid : r.user_id = actor
        all_goals by_cases hst : r.status = .pending_captcha
        · -- pending record, right actor
          obtain ⟨ihA, ihB, ihC, ihD, ihE⟩ := ih
          have hmz : ¬r.captcha_max_attempts = 0 := by omega
          obtain ⟨hlt, hc0⟩ := ihC hst
          by_cases hval : validate_captcha (r.captcha_answer.getD 0) sel = true
          · by_cases haOk : aOk = true
            · subst haOk
              simp [on_captcha_callback, hid, hst, hval, Storage.complete]
              omega
            · have haf : aOk = false := by simpa using haOk
              subst haf
              simp [on_captcha_callback, hid, hst, hval]
              omega
          · have hvf : validate_captcha (r.captcha_answer.getD 0) sel = false := by
              simpa using hval
            by_cases hlim : r.captcha_max_attempts ≤ r.captcha_attempts + 1
            · simp [on_captcha_callback, hid, hst, hvf, hmz, hlim,
                Storage.increment_captcha_attempts, Storage.complete]
              omega
            · simp [on_captcha_callback, hid, hst, hvf, hmz, hlim,
                Storage.increment_captcha_attempts, Storage.refresh_captcha]
              omega
        · -- right actor, record not pending: handler rejects, nothing changes
          simpa [on_captcha_callback, hid, hst] using ih
        · -- foreign actor: handler rejects, nothing changes
          simpa [on_captcha_callback, hid] using ih
        · simpa [on_captcha_callback, hid] using ih
  refine ⟨inv, ?_⟩
  intro r c hreach actor sel aOk q na now hst hid hval hlim
  exact captcha_limit_forces_decline s r (inv r c hreach).2.1 actor sel aOk q na now
    hst hid hval hlim

/-- Witness for C2: the freshly routed sample record itself satisfies
the attempt bound. -/
theorem C2_attempts_never_exceed_allowed_witness :
    (sampleRecord .pending_captcha).captcha_attempts ≤
      (sampleRecord .pending_captcha).captcha_max_attempts :=
  (((C2_attempts_never_exceed_allowed sampleSettings (sampleRecord .pending_captcha)
        rfl rfl (by decide)).1 (sampleRecord .pending_captcha) 0
      CaptchaReach.refl)).1

lemma find?_map_congr {α : Type} (g : α → α) (p : α → Bool)
    (h : ∀ x, p (g x) = p x) :
    ∀ rows : List α, (rows.map g).find? p = (rows.find? p).map g := by
  intro rows
  induction rows with
  | nil => rfl
  | cons a t ih =>
      cases hpa : p a with
      | true =>
          rw [List.map_cons, List.find?_cons_of_pos _ (by rw [h a]; exact hpa),
            List.find?_cons_of_pos _ hpa]
          rfl
      | false =>
          rw [List.map_cons, List.find?_cons_of_neg _ (by simp [h a, hpa]),
            List.find?_cons_of_neg _ (by simp [hpa]), ih]

lemma find?_append_of_none {α : Type} (p : α → Bool) (l1 l2 : List α)
    (h : l1.find? p = none) : (l1 ++ l2).find? p = l2.find? p := by
  induction l1 with
  | nil => rfl
  | cons a t ih =>
      rw [List.find?_cons] at h
      cases hpa : p a with
      | true => simp [hpa] at h
      | false =>
          rw [List.cons_append, List.find?_cons_of_neg _ (by simp [hpa])]
          exact ih (by simpa [hpa] using h)

/-- On a `(channel, applicant)` conflict, the upsert keeps the row id and
replaces the row by its refreshed copy; the table size is unchanged. -/
lemma create_or_refresh_found (st : Storage) (jr : JoinRequestEvent) (now : Int)
    (r : JoinRecord) (hfind : st.findByKey jr.channel_id jr.user_id = some r) :
    (Storage.create_or_refresh_request st jr now).2 = r.id ∧
      (Storage.create_or_refresh_request st jr now).1.findByKey jr.channel_id
          jr.user_id =
        some
          { r with
            user_chat_id := jr.user_chat_id, username := jr.username,
            first_name := jr.first_name, last_name := jr.last_name,
            submitted_at := now, status := .new, is_suspicious := false,
            estimated_age_days := none, risk_score := 0, risk_reasons := none,
            captcha_question := none, captcha_answer := none,
            captcha_attempts := 0, captcha_max_attempts := 3,
            captcha_difficulty := "normal", decision_by := none,
            decision_at := none, reason := none } ∧
      (Storage.create_or_refresh_request st jr now).1.rows.length =
        st.rows.length := by
  have hfind2 : st.rows.find?
      (fun x => x.channel_id == jr.channel_id && x.user_id == jr.user_id) =
      some r := by simpa [Storage.findByKey] using hfind
  have hpr : (r.channel_id == jr.channel_id && r.user_id == jr.user_id) = true := by
    have := List.find?_some hfind2
    simpa using this
  refine ⟨?_, ?_, ?_⟩
  · simp [Storage.create_or_refresh_request, Storage.findByKey, hfind2]
  · simp only [Storage.create_or_refresh_request, Storage.findByKey, hfind2]
    rw [find?_map_congr _ _ ?_]
    · rw [hfind2]
      simp only [Option.map_some']
      rw [if_pos hpr]
    · intro x
      by_cases hx : (x.channel_id == jr.channel_id && x.user_id == jr.user_id) = true
      · rw [if_pos hx, hx]
        simpa using hpr
      · rw [if_neg hx]
  · simp [Storage.create_or_refresh_request, Storage.findByKey, hfind2]

/-- When no row matches, the upsert appends a fresh row with the cursor
id. -/
lemma create_or_refresh_missing (st : Storage) (jr : JoinRequestEvent) (now : Int)
    (hfind : st.findByKey jr.channel_id jr.user_id = none) :
    (Storage.create_or_refresh_request st jr now).2 = st.next_id ∧
      (Storage.create_or_refresh_request st jr now).1.findByKey jr.channel_id
          jr.user_id =
        some
          { id := st.next_id, channel_id := jr.channel_id, user_id := jr.user_id,
            user_chat_id := jr.user_chat_id, username := jr.username,
            first_name := jr.first_name, last_name := jr.last_name,
            submitted_at := now, status := .new, is_suspicious := false,
            estimated_age_days := none, risk_score := 0, risk_reasons := none,
            captcha_question := none, captcha_answer := none,
            captcha_attempts := 0, captcha_max_attempts := 3,
            captcha_difficulty := "normal", decision_by := none,
            decision_at := none, reason := none } := by
  have hfind2 : st.rows.find?
      (fun x => x.channel_id == jr.channel_id && x.user_id == jr.user_id) =
      none := by simpa [Storage.findByKey] using hfind
  refine ⟨?_, ?_⟩
  · simp [Storage.create_or_refresh_request, Storage.findByKey, hfind2]
  · simp only [Storage.create_or_refresh_request, Storage.findByKey, hfind2]
    rw [find?_append_of_none _ _ _ hfind2]
    simp

/-- After an upsert the row is findable under its key, with the returned
id. -/
lemma create_or_refresh_find (st : Storage) (jr : JoinRequestEvent) (now : Int) :
    ∃ rr : JoinRecord,
      (Storage.create_or_refresh_request st jr now).1.findByKey jr.channel_id
          jr.user_id = some rr ∧
        rr.id = (Storage.create_or_refresh_request st jr now).2 ∧
        rr.status = .new ∧ rr.captcha_attempts = 0 := by
  cases hfind : st.findByKey jr.channel_id jr.user_id with
  | none =>
      obtain ⟨h1, h2⟩ := create_or_refresh_missing st jr now hfind
      exact ⟨_, h2, by simp [h1], rfl, rfl⟩
  | some r =>
      obtain ⟨h1, h2, _⟩ := create_or_refresh_found st jr now r hfind
      exact ⟨_, h2, by simp [h1], rfl, rfl⟩

/-- A key-preserving per-row update keeps the row findable and applies
`f` to it. -/
lemma findByKey_updateById (st : Storage) (c u : Int) (rid : Nat)
    (f : JoinRecord → JoinRecord)
    (hf : ∀ x, (f x).channel_id = x.channel_id ∧ (f x).user_id = x.user_id)
    (r : JoinRecord) (hfind : st.findByKey c u = some r) (hid : r.id = rid) :
    (st.updateById rid f).findByKey c u = some (f r) := by
  simp only [Storage.findByKey, Storage.updateById] at hfind ⊢
  rw [find?_map_congr _ _ ?_]
  · rw [hfind]
    simp [hid]
  · intro x
    by_cases hx : x.id == rid
    · simp [hx, (hf x).1, (hf x).2]
    · simp [hx]

/-- C7: refreshing an existing record keeps its id (no new row is
created), overwrites the profile snapshot and resets status to `new`
with all risk, challenge and decision fields cleared; doing it twice in
a row yields the same cleared shape both times. -/
theorem C7_refresh_idempotent :
    ∀ (st : Storage) (jr : JoinRequestEvent) (now1 now2 : Int) (r : JoinRecord),
      st.findByKey jr.channel_id jr.user_id = some r →
      r.status ≠ .approved → r.status ≠ .declined →
      ∃ r1 r2 : JoinRecord,
        (Storage.create_or_refresh_request st jr now1).2 = r.id ∧
          (Storage.create_or_refresh_request st jr now1).1.findByKey jr.channel_id
              jr.user_id = some r1 ∧
          (Storage.create_or_refresh_request
              (Storage.create_or_refresh_request st jr now1).1 jr now2).2 = r.id ∧
          (Storage.create_or_refresh_request
              (Storage.create_or_refresh_request st jr now1).1 jr
              now2).1.findByKey jr.channel_id jr.user_id = some r2 ∧
          r1.id = r.id ∧ r2.id = r.id ∧
          refreshedState r1 jr now1 ∧ refreshedState r2 jr now2 ∧
          (Storage.create_or_refresh_request st jr now1).1.rows.length =
            st.rows.length ∧
          (Storage.create_or_refresh_request
              (Storage.create_or_refresh_request st jr now1).1 jr
              now2).1.rows.length = st.rows.length := by
  intro st jr now1 now2 r hfind hna hnd
  obtain ⟨h1, h2, h3⟩ := create_or_refresh_found st jr now1 r hfind
  obtain ⟨g1, g2, g3⟩ := create_or_refresh_found _ jr now2 _ h2
  refine ⟨_, _, h1, h2, by simpa using g1, g2, by simp, by simp, ?_, ?_,
    h3, by rw [g3, h3]⟩
  · simp [refreshedState]
  · simp [refreshedState]

/-- Witness for C7: refreshing the sample one-row table returns the
existing row id. -/
theorem C7_refresh_idempotent_witness :
    (Storage.create_or_refresh_request
        { rows := [sampleRecord .pending_captcha], next_id := 2 }
        { channel_id := -1001, user_id := 42, user_chat_id := 43,
          username := some "m2", first_name := "M", last_name := none }
        100).2 =
      (sampleRecord .pending_captcha).id := by
  obtain ⟨r1, r2, h1, _⟩ :=
    C7_refresh_idempotent
      { rows := [sampleRecord .pending_captcha], next_id := 2 }
      { channel_id := -1001, user_id := 42, user_chat_id := 43,
        username := some "m2", first_name := "M", last_name := none }
      100 200 (sampleRecord .pending_captcha) (by decide) (by decide) (by decide)
  exact h1

lemma set_risk_profile_keepsKey (a b : Int) (l : List String) :
    ∀ x : JoinRecord, (Storage.set_risk_profile x a b l).channel_id = x.channel_id ∧
      (Storage.set_risk_profile x a b l).user_id = x.user_id := by
  intro x
  simp [Storage.set_risk_profile]

lemma mark_pending_admin_keepsKey (msg : String) :
    ∀ x : JoinRecord, (Storage.mark_pending_admin x msg).channel_id = x.channel_id ∧
      (Storage.mark_pending_admin x msg).user_id = x.user_id := by
  intro x
  simp [Storage.mark_pending_admin]

lemma mark_pending_captcha_keepsKey (q : String) (a m : Int) (d : String) :
    ∀ x : JoinRecord,
      (Storage.mark_pending_captcha x q a m d).channel_id = x.channel_id ∧
        (Storage.mark_pending_captcha x q a m d).user_id = x.user_id := by
  intro x
  simp [Storage.mark_pending_captcha]

/-- C3: after a fresh join request is scored, the routing decision is:
manual mode or score at or above `risk_score_to_admin` gives
`pending_admin` with route reason `manual_mode` (when manual) or
`risk_threshold_admin`; otherwise score at or above
`risk_score_to_hard_captcha` gives `pending_captcha` with difficulty
`hard` and `attempts_allowed = min(max_captcha_attempts,
hard_captcha_attempts)`; otherwise `pending_captcha` with difficulty
`normal` and `attempts_allowed = max_captcha_attempts`.  In manual mode
every record lands in `pending_admin` regardless of score.  The risk
profile is persisted on the record in all branches. -/
theorem C3_routing_decision :
    ∀ (st : Storage) (jr : JoinRequestEvent) (mode : String)
      (risk : RiskAssessment) (hardCaptcha normalCaptcha : String × Int)
      (now : Int) (s : Settings),
      jr.channel_id = s.channel_id →
      ∃ rec : JoinRecord,
        (on_join_request st jr mode risk hardCaptcha normalCaptcha now
              s).findByKey jr.channel_id jr.user_id = some rec ∧
          ((mode = "manual" ∨ s.risk_score_to_admin ≤ risk.score) →
            rec.status = .pending_admin ∧
              rec.reason = some ("route=" ++
                (if mode = "manual" then "manual_mode" else "risk_threshold_admin") ++
                "; " ++ build_risk_summary risk.score risk.reasons)) ∧
          (mode = "manual" → rec.status = .pending_admin) ∧
          (¬(mode = "manual" ∨ s.risk_score_to_admin ≤ risk.score) →
            s.risk_score_to_hard_captcha ≤ risk.score →
            rec.status = .pending_captcha ∧ rec.captcha_difficulty = "hard" ∧
              rec.captcha_max_attempts =
                min s.max_captcha_attempts s.hard_captcha_attempts ∧
              rec.captcha_question = some hardCaptcha.1 ∧
              rec.captcha_answer = some hardCaptcha.2 ∧
              rec.captcha_attempts = 0) ∧
          (¬(mode = "manual" ∨ s.risk_score_to_admin ≤ risk.score) →
            risk.score < s.risk_score_to_hard_captcha →
            rec.status = .pending_captcha ∧ rec.captcha_difficulty = "normal" ∧
              rec.captcha_max_attempts = s.max_captcha_attempts ∧
              rec.captcha_question = some normalCaptcha.1 ∧
              rec.captcha_answer = some normalCaptcha.2 ∧
              rec.captcha_attempts = 0) ∧
          rec.risk_score = risk.score ∧
          rec.estimated_age_days = some risk.estimated_age_days ∧
          rec.risk_reasons = some risk.reasons := by
  intro st jr mode risk hardCaptcha normalCaptcha now s hchan
  have hchan2 : ¬jr.channel_id ≠ s.channel_id := by simpa using hchan
  obtain ⟨rr, hrrfind, hrrid, _, _⟩ := create_or_refresh_find st jr now
  have hset := findByKey_updateById
    (Storage.create_or_refresh_request st jr now).1 jr.channel_id jr.user_id
    (Storage.create_or_refresh_request st jr now).2
    (fun x => Storage.set_risk_profile x risk.estimated_age_days risk.score
      risk.reasons)
    (fun x => set_risk_profile_keepsKey _ _ _ x) rr hrrfind hrrid
  by_cases h1 : mode = "manual" ∨ s.risk_score_to_admin ≤ risk.score
  · have hmark := findByKey_updateById _ jr.channel_id jr.user_id
      (Storage.create_or_refresh_request st jr now).2
      (fun x => Storage.mark_pending_admin x
        ("route=" ++ (if mode = "manual" then "manual_mode"
          else "risk_threshold_admin") ++ "; " ++
          build_risk_summary risk.score risk.reasons))
      (fun x => mark_pending_admin_keepsKey _ x) _ hset (by
        simp [Storage.set_risk_profile, hrrid])
    refine ⟨Storage.mark_pending_admin
        (Storage.set_risk_profile rr risk.estimated_age_days risk.score
          risk.reasons)
        ("route=" ++ (if mode = "manual" then "manual_mode"
          else "risk_threshold_admin") ++ "; " ++
          build_risk_summary risk.score risk.reasons),
      ?_, ?_, ?_, ?_, ?_, ?_, ?_, ?_⟩
    · simp only [on_join_request, if_neg hchan2, if_pos h1]
      exact hmark
    · intro _
      simp [Storage.mark_pending_admin]
    · intro _
      simp [Storage.mark_pending_admin]
    · intro hcon
      exact absurd h1 hcon
    · intro hcon
      exact absurd h1 hcon
    · simp [Storage.mark_pending_admin, Storage.set_risk_profile]
    · simp [Storage.mark_pending_admin, Storage.set_risk_profile]
    · simp [Storage.mark_pending_admin, Storage.set_risk_profile]
  · by_cases h2 : s.risk_score_to_hard_captcha ≤ risk.score
    · have hmark := findByKey_updateById _ jr.channel_id jr.user_id
        (Storage.create_or_refresh_request st jr now).2
        (fun x => Storage.mark_pending_captcha x hardCaptcha.1 hardCaptcha.2
          (min s.max_captcha_attempts s.hard_captcha_attempts) "hard")
        (fun x => mark_pending_captcha_keepsKey _ _ _ _ x) _ hset (by
          simp [Storage.set_risk_profile, hrrid])
      refine ⟨Storage.mark_pending_captcha
          (Storage.set_risk_profile rr risk.estimated_age_days risk.score
            risk.reasons)
          hardCaptcha.1 hardCaptcha.2
          (min s.max_captcha_attempts s.hard_captcha_attempts) "hard",
        ?_, ?_, ?_, ?_, ?_, ?_, ?_, ?_⟩
      · simp only [on_join_request, if_neg hchan2, if_neg h1, if_pos h2]
        exact hmark
      · intro hcon
        exact absurd hcon h1
      · intro hman
        exact absurd (Or.inl hman) h1
      · intro _ _
        simp [Storage.mark_pending_captcha]
      · intro _ hlt
        omega
      · simp [Storage.mark_pending_captcha, Storage.set_risk_profile]
      · simp [Storage.mark_pending_captcha, Storage.set_risk_profile]
      · simp [Storage.mark_pending_captcha, Storage.set_risk_profile]
    · have hmark := findByKey_updateById _ jr.channel_id jr.user_id
        (Storage.create_or_refresh_request st jr now).2
        (fun x => Storage.mark_pending_captcha x normalCaptcha.1 normalCaptcha.2
          s.max_captcha_attempts "normal")
        (fun x => mark_pending_captcha_keepsKey _ _ _ _ x) _ hset (by
          simp [Storage.set_risk_profile, hrrid])
      refine ⟨Storage.mark_pending_captcha
          (Storage.set_risk_profile rr risk.estimated_age_days risk.score
            risk.reasons)
          normalCaptcha.1 normalCaptcha.2 s.max_captcha_attempts "normal",
        ?_, ?_, ?_, ?_, ?_, ?_, ?_, ?_⟩
      · simp only [on_join_request, if_neg hchan2, if_neg h1, if_neg h2]
        exact hmark
      · intro hcon
        exact absurd hcon h1
      · intro hman
        exact absurd (Or.inl hman) h1
      · intro _ hge
        exact absurd hge h2
      · intro _ _
        simp [Storage.mark_pending_captcha]
      · simp [Storage.mark_pending_captcha, Storage.set_risk_profile]
      · simp [Storage.mark_pending_captcha, Storage.set_risk_profile]
      · simp [Storage.mark_pending_captcha, Storage.set_risk_profile]

/-- Witness for C3: in manual mode a zero-score applicant is routed to
`pending_admin`. -/
theorem C3_routing_decision_witness :
    ∃ rec : JoinRecord,
      (on_join_request { rows := [], next_id := 1 }
            { channel_id := -1001, user_id := 42, user_chat_id := 43,
              username := some "m2", first_name := "M", last_name := none }
            "manual" { estimated_age_days := 100, score := 0, reasons := [] }
            ("hq", 7) ("nq", 5) 100 sampleSettings).findByKey (-1001) 42 =
          some rec ∧
        rec.status = .pending_admin := by
  obtain ⟨rec, hfind, hadmin, _⟩ :=
    C3_routing_decision { rows := [], next_id := 1 }
      { channel_id := -1001, user_id := 42, user_chat_id := 43,
        username := some "m2", first_name := "M", last_name := none }
      "manual" { estimated_age_days := 100, score := 0, reasons := [] }
      ("hq", 7) ("nq", 5) 100 sampleSettings (by decide)
  exact ⟨rec, hfind, (hadmin (Or.inl rfl)).1⟩

/-- C4 counterexample: two reviewer actions racing on the same
`pending_admin` record, both passing their entry checks before either
commits, produce *two* terminal writes — the record is first approved
(admit issued) and then overwritten to declined (reject issued).  The
second `Storage.complete` ran although the status no longer matched
`pending_admin`: no re-check happens immediately before the terminal
write. -/
theorem C4_no_recheck_counterexample :
    (runRace .reviewer_approve .reviewer_decline [true, false, true, false]
          (initRace .pending_admin)).writes = [.approved, .declined] ∧
      (runRace .reviewer_approve .reviewer_decline [true, false, true, false]
          (initRace .pending_admin)).admit_calls = 1 ∧
      (runRace .reviewer_approve .reviewer_decline [true, false, true, false]
          (initRace .pending_admin)).reject_calls = 1 ∧
      (runRace .reviewer_approve .reviewer_decline [true, false, true, false]
          (initRace .pending_admin)).status = .declined := by
  decide

lemma race_inv_captcha (k2 : RaceKind) (hk2 : k2.preStatus = .pending_admin) :
    ∀ (sched : List Bool) (st : RaceState),
      ((st.phase2 = .ready ∨ st.phase2 = .done_aborted) ∧ st.reject_calls = 0 ∧
        ((st.phase1 = .ready ∧ st.status = .pending_captcha ∧ st.writes = [] ∧
            st.admit_calls = 0) ∨
          (st.phase1 = .called ∧ st.status = .pending_captcha ∧ st.writes = [] ∧
            st.admit_calls = 1) ∨
          (st.phase1 = .done_committed ∧ st.status = .approved ∧
            st.writes = [.approved] ∧ st.admit_calls = 1))) →
      (((runRace .challenge_success k2 sched st).phase2 = .ready ∨
          (runRace .challenge_success k2 sched st).phase2 = .done_aborted) ∧
        (runRace .challenge_success k2 sched st).reject_calls = 0 ∧
        (((runRace .challenge_success k2 sched st).phase1 = .ready ∧
            (runRace .challenge_success k2 sched st).status = .pending_captcha ∧
            (runRace .challenge_success k2 sched st).writes = [] ∧
            (runRace .challenge_success k2 sched st).admit_calls = 0) ∨
          ((runRace .challenge_success k2 sched st).phase1 = .called ∧
            (runRace .challenge_success k2 sched st).status = .pending_captcha ∧
            (runRace .challenge_success k2 sched st).writes = [] ∧
            (runRace .challenge_success k2 sched st).admit_calls = 1) ∨
          ((runRace .challenge_success k2 sched st).phase1 = .done_committed ∧
            (runRace .challenge_success k2 sched st).status = .approved ∧
            (runRace .challenge_success k2 sched st).writes = [.approved] ∧
            (runRace .challenge_success k2 sched st).admit_calls = 1))) := by
  cases k2 with
  | challenge_success => exact absurd hk2 (by decide)
  | reviewer_approve =>
      intro sched
      induction sched with
      | nil => intro st h; simpa [runRace] using h
      | cons b rest ih =>
          intro st h
          rw [runRace]
          apply ih
          obtain ⟨h2, hrj, h1⟩ := h
          cases b
          · rcases h2 with hp2 | hp2 <;>
              rcases h1 with ⟨hp, hs, hw, ha⟩ | ⟨hp, hs, hw, ha⟩ | ⟨hp, hs, hw, ha⟩ <;>
              simp [raceStep, stepAction, hp, hp2, hs, hw, ha, hrj,
                RaceKind.preStatus, RaceKind.outcomeStatus, RaceKind.admitNeeded]
          · rcases h2 with hp2 | hp2 <;>
              rcases h1 with ⟨hp, hs, hw, ha⟩ | ⟨hp, hs, hw, ha⟩ | ⟨hp, hs, hw, ha⟩ <;>
              simp [raceStep, stepAction, hp, hp2, hs, hw, ha, hrj,
                RaceKind.preStatus, RaceKind.outcomeStatus, RaceKind.admitNeeded]
  | reviewer_decline =>
      intro sched
      induction sched with
      | nil => intro st h; simpa [runRace] using h
      | cons b rest ih =>
          intro st h
          rw [runRace]
          apply ih
          obtain ⟨h2, hrj, h1⟩ := h
          cases b
          · rcases h2 with hp2 | hp2 <;>
              rcases h1 with ⟨hp, hs, hw, ha⟩ | ⟨hp, hs, hw, ha⟩ | ⟨hp, hs, hw, ha⟩ <;>
              simp [raceStep, stepAction, hp, hp2, hs, hw, ha, hrj,
                RaceKind.preStatus, RaceKind.outcomeStatus, RaceKind.admitNeeded]
          · rcases h2 with hp2 | hp2 <;>
              rcases h1 with ⟨hp, hs, hw, ha⟩ | ⟨hp, hs, hw, ha⟩ | ⟨hp, hs, hw, ha⟩ <;>
              simp [raceStep, stepAction, hp, hp2, hs, hw, ha, hrj,
                RaceKind.preStatus, RaceKind.outcomeStatus, RaceKind.admitNeeded]

lemma race_inv_admin (k2 : RaceKind) (hk2 : k2.preStatus = .pending_admin) :
    ∀ (sched : List Bool) (st : RaceState),
      ((st.phase1 = .ready ∨ st.phase1 = .done_aborted) ∧
        ((st.phase2 = .ready ∧ st.status = .pending_admin ∧ st.writes = []) ∨
          (st.phase2 = .called ∧ st.status = .pending_admin ∧ st.writes = []) ∨
          (st.phase2 = .done_committed ∧ st.status = k2.outcomeStatus ∧
            st.writes = [k2.outcomeStatus]))) →
      (((runRace .challenge_success k2 sched st).phase1 = .ready ∨
          (runRace .challenge_success k2 sched st).phase1 = .done_aborted) ∧
        (((runRace .challenge_success k2 sched st).phase2 = .ready ∧
            (runRace .challenge_success k2 sched st).status = .pending_admin ∧
            (runRace .challenge_success k2 sched st).writes = []) ∨
          ((runRace .challenge_success k2 sched st).phase2 = .called ∧
            (runRace .challenge_success k2 sched st).status = .pending_admin ∧
            (runRace .challenge_success k2 sched st).writes = []) ∨
          ((runRace .challenge_success k2 sched st).phase2 = .done_committed ∧
            (runRace .challenge_success k2 sched st).status = k2.outcomeStatus ∧
            (runRace .challenge_success k2 sched st).writes =
              [k2.outcomeStatus]))) := by
  cases k2 with
  | challenge_success => exact absurd hk2 (by decide)
  | reviewer_approve =>
      intro sched
      induction sched with
      | nil => intro st h; simpa [runRace] using h
      | cons b rest ih =>
          intro st h
          rw [runRace]
          apply ih
          obtain ⟨h1, h2⟩ := h
          cases b
          · rcases h1 with hp1 | hp1 <;>
              rcases h2 with ⟨hp, hs, hw⟩ | ⟨hp, hs, hw⟩ | ⟨hp, hs, hw⟩ <;>
              simp [raceStep, stepAction, hp, hp1, hs, hw,
                RaceKind.preStatus, RaceKind.outcomeStatus, RaceKind.admitNeeded]
          · rcases h1 with hp1 | hp1 <;>
              rcases h2 with ⟨hp, hs, hw⟩ | ⟨hp, hs, hw⟩ | ⟨hp, hs, hw⟩ <;>
              simp [raceStep, stepAction, hp, hp1, hs, hw,
                RaceKind.preStatus, RaceKind.outcomeStatus, RaceKind.admitNeeded]
  | reviewer_decline =>
      intro sched
      induction sched with
      | nil => intro st h; simpa [runRace] using h
      | cons b rest ih =>
          intro st h
          rw [runRace]
          apply ih
          obtain ⟨h1, h2⟩ := h
          cases b
          · rcases h1 with hp1 | hp1 <;>
              rcases h2 with ⟨hp, hs, hw⟩ | ⟨hp, hs, hw⟩ | ⟨hp, hs, hw⟩ <;>
              simp [raceStep, stepAction, hp, hp1, hs, hw,
                RaceKind.preStatus, RaceKind.outcomeStatus, RaceKind.admitNeeded]
          · rcases h1 with hp1 | hp1 <;>
              rcases h2 with ⟨hp, hs, hw⟩ | ⟨hp, hs, hw⟩ | ⟨hp, hs, hw⟩ <;>
              simp [raceStep, stepAction, hp, hp1, hs, hw,
                RaceKind.preStatus, RaceKind.outcomeStatus, RaceKind.admitNeeded]

/-- C4 (amended): a challenge-success transition and a reviewer
transition require mutually exclusive pre-states, each checked once at
handler entry, so in any interleaving of that mixed pair at most one
terminal outcome is committed and the mismatching handler only ever
aborts as already-processed having written nothing and called no
executor.  There is, however, no re-check immediately before the
terminal write: `Storage.complete` overwrites the status
unconditionally, whatever the current status is (and two same-prestate
actions can therefore both commit, see the counterexample). -/
theorem C4_race_single_decision :
    (∀ (k2 : RaceKind), k2.preStatus = .pending_admin →
      ∀ sched : List Bool,
        (runRace .challenge_success k2 sched (initRace .pending_captcha)).writes.length ≤ 1 ∧
          (∀ w ∈ (runRace .challenge_success k2 sched
              (initRace .pending_captcha)).writes, w = Status.approved) ∧
          (runRace .challenge_success k2 sched
              (initRace .pending_captcha)).reject_calls = 0 ∧
          ((runRace .challenge_success k2 sched
              (initRace .pending_captcha)).phase2 = .ready ∨
            (runRace .challenge_success k2 sched
                (initRace .pending_captcha)).phase2 = .done_aborted)) ∧
    (∀ (k2 : RaceKind), k2.preStatus = .pending_admin →
      ∀ sched : List Bool,
        (runRace .challenge_success k2 sched (initRace .pending_admin)).writes.length ≤ 1 ∧
          (∀ w ∈ (runRace .challenge_success k2 sched
              (initRace .pending_admin)).writes, w = k2.outcomeStatus) ∧
          ((runRace .challenge_success k2 sched
              (initRace .pending_admin)).phase1 = .ready ∨
            (runRace .challenge_success k2 sched
                (initRace .pending_admin)).phase1 = .done_aborted)) ∧
    (∀ (r : JoinRecord) (status2 : Status) (d : Option Int) (now : Int)
        (msg : String),
      (Storage.complete r status2 d now msg).status = status2) := by
  refine ⟨?_, ?_, ?_⟩
  · intro k2 hk2 sched
    have h := race_inv_captcha k2 hk2 sched (initRace .pending_captcha)
      (by simp [initRace])
    obtain ⟨hph2, hrj, hdis⟩ := h
    rcases hdis with ⟨_, _, hw, _⟩ | ⟨_, _, hw, _⟩ | ⟨_, _, hw, _⟩ <;>
      rw [hw] <;> exact ⟨by simp, by simp, hrj, hph2⟩
  · intro k2 hk2 sched
    have h := race_inv_admin k2 hk2 sched (initRace .pending_admin)
      (by simp [initRace])
    obtain ⟨hph1, hdis⟩ := h
    rcases hdis with ⟨_, _, hw⟩ | ⟨_, _, hw⟩ | ⟨_, _, hw⟩ <;>
      rw [hw] <;> exact ⟨by simp, by simp, hph1⟩
  · intro r status2 d now msg
    simp [Storage.complete]

/-- Witness for C4 at a concrete schedule: with the record in
`pending_captcha`, the reviewer decline loses and writes nothing; and
`Storage.complete` writes over an already-approved record with no
status check. -/
theorem C4_race_single_decision_witness :
    (runRace .challenge_success .reviewer_decline [false, true, true]
        (initRace .pending_captcha)).writes.length ≤ 1 ∧
      (Storage.complete (sampleRecord .approved) .declined none 9 "x").status =
        .declined :=
  ⟨(C4_race_single_decision.1 .reviewer_decline rfl [false, true, true]).1,
    C4_race_single_decision.2.2 (sampleRecord .approved) .declined none 9 "x"⟩

end JoinGuard
